import Mathlib

/-!
Shallow embedding of `src/CheckLogs.py` (API Gateway log troubleshooting).

Strings are modelled as `List Char`. Python `re.search` is only ever applied to
regex patterns of three fixed shapes, so the pattern language is embedded as a
small datatype `Rex` whose constructors carry the literal parts of the source
patterns, together with a search function `reSearch` implementing Python's
leftmost-then-greedy `re.search` semantics for exactly these shapes
(`.` does not match a newline; the matched span and the capture groups are
returned, mirroring `Match.start()/.end()` and `Match.groups()`).

External collaborators (the CloudWatch Logs client `boto3.client("logs")` and
`dateutil.parser.parse`) are not part of the repository; they are passed in as
explicit parameters (`Backend`, `parse`), and raised Python exceptions are
modelled with `Except`/`Option` result types.
-/

/-- Python strings, modelled as lists of characters. -/
abbrev Str : Type := List Char

/-- Coerce a Lean string literal to the `Str` model. -/
def str (s : String) : Str := s.data

/-- `needle` is a prefix of `hay` (executable). -/
def startsWith : Str → Str → Bool
  | [], _ => true
  | _ :: _, [] => false
  | a :: as, b :: bs => a = b && startsWith as bs

/-- `needle` occurs as a contiguous substring of `hay` (executable). -/
def containsSub (needle : Str) : Str → Bool
  | [] => needle.isEmpty
  | c :: t => startsWith needle (c :: t) || containsSub needle t

/-- Python `s.split(sep)` for a one-character separator: the maximal
separator-free segments of `s`, in order (never empty as a list). -/
def splitOnChar (sep : Char) : Str → List Str
  | [] => [[]]
  | c :: t =>
    match splitOnChar sep t with
    | [] => [[c]]
    | l :: ls => if c = sep then [] :: l :: ls else (c :: l) :: ls

/-- The maximal newline-free segments of `s`, in order.  These are the
segments that a Python regex `.` can stay inside. -/
def splitLines (s : Str) : List Str := splitOnChar '\n' s

/-- Python `sep.join(pieces)`. -/
def joinWith (sep : Str) : List Str → Str
  | [] => []
  | [x] => x
  | x :: y :: rest => x ++ sep ++ joinWith sep (y :: rest)

/-- Lowercase-hex character, the class `[0-9a-f]` used in the redaction
patterns of `ERRORS`. -/
def isHexDigit (c : Char) : Bool :=
  ('0' ≤ c && c ≤ '9') || ('a' ≤ c && c ≤ 'f')

/-- Consume exactly `n` hex characters (the `[0-9a-f]{n}` pieces). -/
def takeHex : Nat → Str → Option Str
  | 0, s => some s
  | _ + 1, [] => none
  | n + 1, c :: s => if isHexDigit c then takeHex n s else none

/-- Consume one expected character. -/
def expectChar (c : Char) : Str → Option Str
  | [] => none
  | d :: s => if d = c then some s else none

/-- Parse the token `\([0-9a-f]{8}-[0-9a-f]{4}-[0-9a-f]{4}-[0-9a-f]{4}-[0-9a-f]{12}\)`
at the head of `s`; on success return the 38-character token and the rest. -/
def uuidTokenAt (s : Str) : Option (Str × Str) :=
  (expectChar '(' s).bind fun r1 =>
  (takeHex 8 r1).bind fun r2 =>
  (expectChar '-' r2).bind fun r3 =>
  (takeHex 4 r3).bind fun r4 =>
  (expectChar '-' r4).bind fun r5 =>
  (takeHex 4 r5).bind fun r6 =>
  (expectChar '-' r6).bind fun r7 =>
  (takeHex 4 r7).bind fun r8 =>
  (expectChar '-' r8).bind fun r9 =>
  (takeHex 12 r9).bind fun r10 =>
  (expectChar ')' r10).map fun rest => (s.take 38, rest)

/-- Scan left to right for the leftmost position where a UUID token starts and
the literal `lit` occurs later on the same line; on success return the token
and the remainder of that line after the token.  This is `re.search`'s
leftmost-match scan for the pattern `(\(uuid\)).*(lit).*`. -/
def findUuidLit (lit : Str) : Str → Option (Str × Str)
  | [] => none
  | c :: t =>
    match uuidTokenAt (c :: t) with
    | some (tok, rest) =>
      let lineRest := rest.takeWhile (fun d => d != '\n')
      if containsSub lit lineRest then some (tok, lineRest) else findUuidLit lit t
    | none => findUuidLit lit t

/-- The regex pattern shapes occurring in `CheckLogs.py`.
Every pattern string in the source is one of:
`.*lit.*`, `(.*lit.*)`, `(.*[c₁c₂]lit.*)`,
`(\([0-9a-f]{8}-[0-9a-f]{4}-[0-9a-f]{4}-[0-9a-f]{4}-[0-9a-f]{12}\)).*(lit).*`,
or the empty pattern `r""` (the constructor default, never searched). -/
inductive Rex : Type
  /-- `.*lit.*` (no capture group). -/
  | dotStarLit (lit : Str)
  /-- `(.*lit.*)` (one group capturing the whole span). -/
  | groupDotStarLit (lit : Str)
  /-- `(.*[c₁c₂]lit.*)` (character class on the first letter). -/
  | caseDotStarLit (c₁ c₂ : Char) (lit : Str)
  /-- `(\(uuid\)).*(lit).*` (two capture groups). -/
  | uuidThenLit (lit : Str)
  /-- `r""`, the `ErrorPattern` constructor default. -/
  | emptyPat
deriving DecidableEq

/-- Result of a successful `re.search`: the matched span
(`m.start():m.end()` of the subject) and the capture groups `m.groups()`. -/
structure ReMatch : Type where
  span : Str
  groups : List Str
deriving DecidableEq

/-- Python `re.search(pattern, s)` for the shapes in `Rex`.

For `.*lit.*` (with or without the outer group), `.` cannot cross a newline,
so a match exists exactly on the lines of `s` containing `lit`; the leftmost
match starts at the beginning of the first such line and the trailing greedy
`.*` extends it to the end of that line, so the span is that whole line.
For `(\(uuid\)).*(lit).*` the match must start at a UUID token followed by
`lit` on the same line; `re.search` takes the leftmost such token, group 1 is
the token, group 2 is exactly the literal, and the greedy trailing `.*` runs
to the end of the line. -/
def reSearch : Rex → Str → Option ReMatch
  | .dotStarLit lit, s =>
    match (splitLines s).find? (fun l => containsSub lit l) with
    | some line => some ⟨line, []⟩
    | none => none
  | .groupDotStarLit lit, s =>
    match (splitLines s).find? (fun l => containsSub lit l) with
    | some line => some ⟨line, [line]⟩
    | none => none
  | .caseDotStarLit c₁ c₂ lit, s =>
    match (splitLines s).find? (fun l => containsSub (c₁ :: lit) l || containsSub (c₂ :: lit) l) with
    | some line => some ⟨line, [line]⟩
    | none => none
  | .uuidThenLit lit, s =>
    match findUuidLit lit s with
    | some (tok, lineRest) => some ⟨tok ++ lineRest, [tok, lit]⟩
    | none => none
  | .emptyPat, _ => some ⟨[], []⟩

/-- `ErrorPattern` from `CheckLogs.py` (fields keep the constructor keyword
names; the `_pattern`/`_articles` attributes are exposed read-only through
properties, so they are plain fields here). -/
structure ErrorPattern : Type where
  pattern : Rex
  articles : List Str
  redact : Bool
  redacted_message_pattern : Rex
deriving DecidableEq

/-- The `ERRORS` rule table from `CheckLogs.py`, in source order.  The
constructor default `redacted_message_pattern=r""` of non-redacting rules is
`Rex.emptyPat`; `redact` defaults to `True` in the source and is written
explicitly on every rule here. -/
def ERRORS : List ErrorPattern := [
  { pattern := .caseDotStarLit 'N' 'n' (str "etwork error communicating with endpoint"),
    articles := [str "https://repost.aws/knowledge-center/api-gateway-network-endpoint-error"],
    redact := false, redacted_message_pattern := .emptyPat },
  { pattern := .groupDotStarLit (str "Execution failed due to configuration error: Invalid endpoint address"),
    articles := [str "https://repost.aws/knowledge-center/api-gateway-invalid-endpoint-address"],
    redact := false, redacted_message_pattern := .emptyPat },
  { pattern := .groupDotStarLit (str "Execution failed due to a timeout error"),
    articles := [str "https://repost.aws/knowledge-center/api-gateway-lambda-integration-errors"],
    redact := false, redacted_message_pattern := .emptyPat },
  { pattern := .groupDotStarLit (str "Malformed Lambda proxy response"),
    articles := [str "https://repost.aws/knowledge-center/api-gateway-lambda-integration-errors"],
    redact := false, redacted_message_pattern := .emptyPat },
  { pattern := .groupDotStarLit (str "Lambda invocation failed with status: 429"),
    articles := [str "https://repost.aws/knowledge-center/api-gateway-lambda-integration-errors"],
    redact := false, redacted_message_pattern := .emptyPat },
  { pattern := .dotStarLit (str "401 Unauthorized"),
    articles := [str "https://repost.aws/knowledge-center/api-gateway-cognito-401-unauthorized",
                 str "https://repost.aws/knowledge-center/api-gateway-401-error-lambda-authorizer"],
    redact := true, redacted_message_pattern := .uuidThenLit (str "401 Unauthorized") },
  { pattern := .groupDotStarLit (str "Missing Authentication Token"),
    articles := [str "https://repost.aws/knowledge-center/api-gateway-authentication-token-errors",
                 str "https://repost.aws/knowledge-center/api-gateway-troubleshoot-403-forbidden"],
    redact := false, redacted_message_pattern := .emptyPat },
  { pattern := .groupDotStarLit (str "not authorized to perform: execute-api:Invoke on resource"),
    articles := [str "https://repost.aws/knowledge-center/api-gateway-403-error-lambda-authorizer",
                 str "https://repost.aws/knowledge-center/api-gateway-troubleshoot-403-forbidden"],
    redact := true,
    redacted_message_pattern := .uuidThenLit (str "not authorized to perform: execute-api:Invoke on resource") },
  { pattern := .groupDotStarLit (str "not authorized to access this resource"),
    articles := [str "https://repost.aws/knowledge-center/api-gateway-403-error-lambda-authorizer"],
    redact := true,
    redacted_message_pattern := .uuidThenLit (str "not authorized to access this resource") },
  { pattern := .groupDotStarLit (str "User: anonymous is not authorized to perform: execute-api:Invoke on resource"),
    articles := [str "https://repost.aws/knowledge-center/api-gateway-403-error-lambda-authorizer",
                 str "https://repost.aws/knowledge-center/api-gateway-troubleshoot-403-forbidden"],
    redact := true,
    redacted_message_pattern := .uuidThenLit (str "not authorized to perform: execute-api:Invoke on resource") },
  { pattern := .groupDotStarLit (str "User is not authorized to access this resource with an explicit deny"),
    articles := [str "https://repost.aws/knowledge-center/api-gateway-troubleshoot-403-forbidden"],
    redact := true,
    redacted_message_pattern := .uuidThenLit (str "not authorized to perform: execute-api:Invoke on resource") },
  { pattern := .groupDotStarLit (str "The security token included in the request is invalid"),
    articles := [str "https://repost.aws/knowledge-center/api-gateway-troubleshoot-403-forbidden"],
    redact := false, redacted_message_pattern := .emptyPat },
  { pattern := .groupDotStarLit (str "Signature expired"),
    articles := [str "https://repost.aws/knowledge-center/api-gateway-troubleshoot-403-forbidden"],
    redact := false, redacted_message_pattern := .emptyPat },
  { pattern := .groupDotStarLit (str "Invalid API Key identifier specified"),
    articles := [str "https://repost.aws/knowledge-center/api-gateway-troubleshoot-403-forbidden"],
    redact := false, redacted_message_pattern := .emptyPat },
  { pattern := .groupDotStarLit (str "The request signature we calculated does not match the signature you provided"),
    articles := [str "https://repost.aws/knowledge-center/api-gateway-troubleshoot-403-forbidden"],
    redact := false, redacted_message_pattern := .emptyPat },
  { pattern := .groupDotStarLit (str "Forbidden"),
    articles := [str "https://repost.aws/knowledge-center/api-gateway-troubleshoot-403-forbidden",
                 str "https://repost.aws/knowledge-center/api-gateway-vpc-connections"],
    redact := false, redacted_message_pattern := .emptyPat },
  { pattern := .groupDotStarLit (str "Authorization header requires"),
    articles := [str "https://repost.aws/knowledge-center/api-gateway-troubleshoot-403-forbidden"],
    redact := true,
    redacted_message_pattern := .uuidThenLit (str "Authorization header requires") },
  { pattern := .groupDotStarLit (str "Method completed with status: 502"),
    articles := [str "https://repost.aws/knowledge-center/malformed-502-api-gateway"],
    redact := false, redacted_message_pattern := .emptyPat },
  { pattern := .groupDotStarLit (str "Execution failed due to configuration error"),
    articles := [str "https://repost.aws/knowledge-center/api-gateway-500-error-vpc"],
    redact := false, redacted_message_pattern := .emptyPat }
]

/-- The "no errors found" sentinel returned by `analyse_logs` ("error" without
the plural `s`, as in the source). -/
def noErrorsMsg : Str :=
  str "No error were found in the log group during the time range provided."

/-- The "no log group" sentinel returned by `analyse_logs`. -/
def noLogGroupMsg : Str := str "No log group was found for the API."

/-- The fixed marker appended to a redacted log line. -/
def redactMarker : Str := str " [sensitive information has been redacted]"

/-- The f-string report of `analyse_logs` for a matched rule:
`log_line` is the (possibly redacted) matched text, `articles` the already
`"\n- "`-joined article list, `alm` the (already newline-prefixed or empty)
access-log message. -/
def buildReport (log_line articles alm : Str) : Str :=
  str "Found the following error:\n\nLog: " ++ log_line ++
    str "\n\nRecommended articles:\n" ++ articles ++ alm

/-- One iteration body of the `for error in ERRORS` loop of `analyse_logs`:
`none` means the rule did not match (continue the loop); `some r` means the
loop returns, where `r = none` models the uncaught `AttributeError` raised by
`to_redact.groups()` when the redaction re-match failed (`re.search` returned
`None`), and `r = some report` is the returned report string. -/
def tryRule (e : ErrorPattern) (query_logs alm : Str) : Option (Option Str) :=
  match reSearch e.pattern query_logs with
  | none => none
  | some m =>
    some (
      if e.redact then
        match reSearch e.redacted_message_pattern m.span with
        | none => none
        | some r =>
          some (buildReport (joinWith (str " ") r.groups ++ redactMarker)
            (joinWith (str "\n- ") e.articles) alm)
      else
        some (buildReport m.span (joinWith (str "\n- ") e.articles) alm))

/-- The `for error in ERRORS` loop of `analyse_logs`; falls through to the
"no errors" sentinel (without the access-log message, as in the source). -/
def analyseLoop : List ErrorPattern → Str → Str → Option Str
  | [], _, _ => some noErrorsMsg
  | e :: rest, query_logs, alm =>
    match tryRule e query_logs alm with
    | none => analyseLoop rest query_logs alm
    | some r => r

/-- `analyse_logs(query_logs, access_log_message)` from `CheckLogs.py`.
`query_logs` is `None` (`none`) or a string, exactly the possible results of
`log_insights_query`; Python truthiness sends both `None` and `""` to the
"no log group" branch.  The result is `none` when the function raises the
redaction `AttributeError` (see `tryRule`), otherwise `some` of the returned
string. -/
def analyse_logs (query_logs : Option Str) (access_log_message : Str) : Option Str :=
  let alm : Str :=
    if access_log_message.isEmpty then access_log_message
    else '\n' :: access_log_message
  match query_logs with
  | none => some noLogGroupMsg
  | some ql =>
    if ql.isEmpty then some noLogGroupMsg
    else analyseLoop ERRORS ql alm

/-- `BACKOFF_RATE = 1.5` from `CheckLogs.py`.  The Python float arithmetic
`1 * 1.5 * 1.5 * ...` is exact (powers of `3/2` fit a double mantissa for
every poll count reachable here), so rationals model it faithfully. -/
def BACKOFF_RATE : ℚ := 3 / 2

/-- One `get_query_results` response: the `status` string and the `results`
records.  Each record is modelled by the value of its first field
(`line[0]["value"]`, the only part the source reads). -/
structure QueryResponse : Type where
  status : Str
  results : List Str
deriving DecidableEq

/-- The external CloudWatch Logs client (`boto3.client("logs")`), modelled as
explicit response functions.  `start_query` takes the keyword arguments
`logGroupName, startTime, endTime, queryString` and either fails with a
`ClientError` carrying an error code (`.error code`) or returns a query id.
`get_query_results qid n` is the response to the `n`-th
`get_query_results(queryId=qid)` call of one invocation. -/
structure Backend : Type where
  start_query : Str → Int → Int → Str → Except Str Str
  get_query_results : Str → Nat → QueryResponse

/-- The two `RuntimeError`s `log_insights_query` can raise: a submission
failure naming the `ClientError` code, or a terminal query status. -/
inductive LogsError : Type
  | startFailure (code : Str)
  | queryFailed (status : Str)
deriving DecidableEq

/-- The terminal non-success statuses checked by `log_insights_query`. -/
def terminalStatuses : List Str :=
  [str "Failed", str "Timeout", str "Cancelled", str "Unknown"]

/-- The `while response["status"] == "Running"` polling loop of
`log_insights_query`.  `f n` is the `n`-th poll response; `wait` is the
current sleep duration (initially 1, multiplied by `BACKOFF_RATE` after each
sleep); `sleeps` accumulates the durations passed to `time.sleep`, in order.
The source loop has no attempt bound, so `fuel` bounds the unfolding and
`none` marks an execution that is still polling after `fuel` responses. -/
def pollAux (f : Nat → QueryResponse) : Nat → ℚ → List ℚ → Nat → Option (QueryResponse × List ℚ)
  | _, _, _, 0 => none
  | n, wait, sleeps, fuel + 1 =>
    if (f n).status = str "Running" then
      pollAux f (n + 1) (wait * BACKOFF_RATE) (sleeps ++ [wait]) fuel
    else
      some (f n, sleeps)

/-- `log_insights_query(query, log_group, start_time, end_time,
is_access_log_query)` from `CheckLogs.py`, against a `Backend`.

Result layering mirrors the Python control flow: the outer `none` is an
execution that never left the polling loop within `fuel` polls; `.error`
is a raised `RuntimeError`; `.ok none` is the Python `return None`
(submission failed with `ResourceNotFoundException`); `.ok (some s)` is the
newline-joined result string.  The second component records the `time.sleep`
durations of the poll loop, in order. -/
def log_insights_query (b : Backend) (query log_group : Str) (start_time end_time : Int)
    (is_access_log_query : Bool) (fuel : Nat) :
    Option (Except LogsError (Option Str) × List ℚ) :=
  match b.start_query log_group start_time end_time query with
  | .error error_code =>
    if error_code = str "ResourceNotFoundException" then some (.ok none, [])
    else some (.error (.startFailure error_code), [])
  | .ok query_id =>
    match pollAux (b.get_query_results query_id) 0 1 [] fuel with
    | none => none
    | some (resp, sleeps) =>
      if !is_access_log_query && terminalStatuses.contains resp.status then
        some (.error (.queryFailed resp.status), sleeps)
      else
        some (.ok (some (joinWith (str "\n") resp.results)), sleeps)

/-- `validate_time_range(start_time, end_time)` from `CheckLogs.py`.
`dateutil.parser.parse` is external; it is modelled as a parameter
`parse : Str → Option Int` (`none` = the parse raised, caught by the
`except` clause; parsed datetimes compare like their timestamps). -/
def validate_time_range (parse : Str → Option Int) (start_time end_time : Str) : Bool :=
  if !start_time.isEmpty && !end_time.isEmpty then
    match parse start_time with
    | none => false
    | some s =>
      match parse end_time with
      | none => false
      | some e => decide (s < e)
  else true

/-- The `event` dict of `check_logs`; a missing key is the empty string
(`event.get(k, "")`). -/
structure HandlerEvent : Type where
  RestApiId : Str
  StageName : Str
  StartTime : Str
  EndTime : Str
  RequestId : Str
  AccessLogName : Str
deriving DecidableEq

/-- The exceptions `check_logs` can raise: the two `ValueError`s for
unparseable time strings, the `ValueError` for an inverted range, a
propagated `RuntimeError` from `log_insights_query`, and the
`AttributeError` from the redaction mismatch inside `analyse_logs`. -/
inductive CheckLogsError : Type
  | invalidStartTime (s : Str)
  | invalidEndTime (s : Str)
  | invalidTimeRange
  | logsFailure (e : LogsError)
  | redactionMismatch
deriving DecidableEq

/-- Resolution of `start_time` in `check_logs`: parse the supplied string or
default to `now - 15 minutes` (in epoch seconds, `now` being the caller's
clock). -/
def resolveStartTime (parse : Str → Option Int) (now : Int) (s : Str) :
    Except CheckLogsError Int :=
  if s.isEmpty then .ok (now - 900)
  else
    match parse s with
    | some t => .ok t
    | none => .error (.invalidStartTime s)

/-- Resolution of `end_time` in `check_logs`: parse the supplied string or
default to `now`. -/
def resolveEndTime (parse : Str → Option Int) (now : Int) (s : Str) :
    Except CheckLogsError Int :=
  if s.isEmpty then .ok now
  else
    match parse s with
    | some t => .ok t
    | none => .error (.invalidEndTime s)

/-- The fixed access-log advisory note of `check_logs`. -/
def fiveXXNote : Str :=
  str "5XX errors found in access logs. Recommended article for review:\nhttps://repost.aws/knowledge-center/api-gateway-find-5xx-errors-cloudwatch"

/-- The fixed access-log query text of `check_logs`. -/
def accessLogsQueryText : Str :=
  str "fields @message | filter status like \"5\" | sort @timestamp desc"

/-- The execution-log query text: filtered by request id when one was
supplied, otherwise all messages, both newest first. -/
def mainQueryText (request_id : Str) : Str :=
  if request_id.isEmpty then str "fields @message | sort @timestamp desc"
  else
    str "fields @message | parse @message \"(*) *\" as rid, msg | filter rid = \"" ++
      request_id ++ str "\" | sort @timestamp desc"

/-- Python truthiness of `log_insights_query`'s result (`if access_logs:`). -/
def optTruthy : Option Str → Bool
  | none => false
  | some s => !s.isEmpty

/-- `access_logs_arn.split(":")[-1]`: the trailing colon-delimited segment. -/
def lastColonSegment (s : Str) : Str := (splitOnChar ':' s).getLastD []

/-- `check_logs(event, _)` from `CheckLogs.py`.  `parse` models
`dateutil.parser.parse` composed with `int(... .timestamp())`, `now` the
current clock in epoch seconds, `b` the CloudWatch Logs client and `fuel`
the poll bound of `log_insights_query`.  `none` = an execution stuck in a
poll loop; `.error` = a raised exception; `.ok` = the returned report. -/
def check_logs (parse : Str → Option Int) (now : Int) (b : Backend) (fuel : Nat)
    (event : HandlerEvent) : Option (Except CheckLogsError Str) :=
  match resolveStartTime parse now event.StartTime with
  | .error e => some (.error e)
  | .ok start_time =>
  match resolveEndTime parse now event.EndTime with
  | .error e => some (.error e)
  | .ok end_time =>
  if validate_time_range parse event.StartTime event.EndTime = false then
    some (.error .invalidTimeRange)
  else
    let log_group : Str :=
      str "API-Gateway-Execution-Logs_" ++ event.RestApiId ++ '/' :: event.StageName
    let accessStep : Option (Except CheckLogsError Str) :=
      if event.AccessLogName.isEmpty then some (.ok [])
      else
        match log_insights_query b accessLogsQueryText (lastColonSegment event.AccessLogName)
            start_time end_time true fuel with
        | none => none
        | some (.error e, _) => some (.error (.logsFailure e))
        | some (.ok access_logs, _) =>
          if optTruthy access_logs then some (.ok fiveXXNote) else some (.ok [])
    match accessStep with
    | none => none
    | some (.error e) => some (.error e)
    | some (.ok access_log_message) =>
      match log_insights_query b (mainQueryText event.RequestId) log_group
          start_time end_time false fuel with
      | none => none
      | some (.error e, _) => some (.error (.logsFailure e))
      | some (.ok cw_logs, _) =>
        match analyse_logs cw_logs access_log_message with
        | none => some (.error .redactionMismatch)
        | some s => some (.ok s)

/-! ### Lemmas about the string utilities -/

theorem startsWith_iff (n h : Str) : startsWith n h = true ↔ n <+: h := by
  induction n generalizing h with
  | nil => simp [startsWith]
  | cons a as ih =>
    cases h with
    | nil => simp [startsWith]
    | cons b bs =>
      simp only [startsWith, Bool.and_eq_true, decide_eq_true_eq, ih]
      constructor
      · rintro ⟨rfl, t, rfl⟩
        exact ⟨t, rfl⟩
      · rintro ⟨t, ht⟩
        injection ht with h1 h2
        exact ⟨h1, t, h2⟩

theorem containsSub_iff (n h : Str) : containsSub n h = true ↔ n <:+: h := by
  induction h with
  | nil => simp [containsSub, List.isEmpty_iff]
  | cons c t ih =>
    simp only [containsSub, Bool.or_eq_true, startsWith_iff, ih]
    constructor
    · rintro (hp | hi)
      · exact hp.isInfix
      · exact hi.trans (List.infix_cons (List.infix_refl t))
    · intro hi
      rcases hi with ⟨pre, post, he⟩
      cases pre with
      | nil => exact Or.inl ⟨post, by simpa using he⟩
      | cons p ps =>
        refine Or.inr ?_
        injection he with h1 h2
        exact ⟨ps, post, h2⟩

theorem containsSub_sandwich (n a b : Str) : containsSub n (a ++ (n ++ b)) = true := by
  rw [containsSub_iff]
  exact ⟨a, b, by simp⟩

theorem splitOnChar_eq_single {sep : Char} {s : Str} (h : sep ∉ s) :
    splitOnChar sep s = [s] := by
  induction s with
  | nil => rfl
  | cons c t ih =>
    have hc : c ≠ sep := fun hcs => h (hcs ▸ List.mem_cons_self c t)
    have ht : sep ∉ t := fun hm => h (List.mem_cons_of_mem c hm)
    simp [splitOnChar, ih ht, hc]

theorem splitLines_eq_single {s : Str} (h : '\n' ∉ s) : splitLines s = [s] :=
  splitOnChar_eq_single h

theorem takeWhile_ne_nl {s : Str} (h : '\n' ∉ s) :
    s.takeWhile (fun d => d != '\n') = s := by
  induction s with
  | nil => rfl
  | cons c t ih =>
    have hc : c ≠ '\n' := fun hcs => h (hcs ▸ List.mem_cons_self c t)
    have ht : '\n' ∉ t := fun hm => h (List.mem_cons_of_mem c hm)
    simp [List.takeWhile_cons, hc, ih ht]

theorem uuidTokenAt_cons_ne {c : Char} (t : Str) (h : c ≠ '(') :
    uuidTokenAt (c :: t) = none := by
  simp [uuidTokenAt, expectChar, h]

/-- The concrete UUID token from the spec's redaction round-trip property. -/
def uuidTok : Str := str "(123e4567-e89b-12d3-a456-426614174000)"

theorem uuidTokenAt_uuidTok (r : Str) : uuidTokenAt (uuidTok ++ r) = some (uuidTok, r) := rfl

theorem findUuidLit_append_no_paren {lit pre : Str} (s : Str) (h : '(' ∉ pre) :
    findUuidLit lit (pre ++ s) = findUuidLit lit s := by
  induction pre with
  | nil => rfl
  | cons c t ih =>
    have hc : c ≠ '(' := fun hcs => h (hcs ▸ List.mem_cons_self c t)
    have ht : '(' ∉ t := fun hm => h (List.mem_cons_of_mem c hm)
    rw [List.cons_append, findUuidLit, uuidTokenAt_cons_ne _ hc, ih ht]

theorem findUuidLit_at_uuidTok {lit : Str} (r : Str)
    (h : containsSub lit (r.takeWhile (fun d => d != '\n')) = true) :
    findUuidLit lit (uuidTok ++ r) = some (uuidTok, r.takeWhile (fun d => d != '\n')) := by
  have he : uuidTok ++ r = '(' :: (str "123e4567-e89b-12d3-a456-426614174000)" ++ r) := rfl
  rw [he, findUuidLit, ← he, uuidTokenAt_uuidTok]
  simp [h]

/-! ### Lemmas about `analyse_logs` -/

theorem buildReport_ne_noLogGroup (log_line articles alm : Str) :
    buildReport log_line articles alm ≠ noLogGroupMsg := by
  intro h
  have hF : (buildReport log_line articles alm).head? = some 'F' := rfl
  have hN : noLogGroupMsg.head? = some 'N' := rfl
  rw [h, hN] at hF
  exact absurd hF (by decide)

theorem tryRule_ne_noLogGroup (e : ErrorPattern) (ql alm : Str) {r : Option Str}
    (h : tryRule e ql alm = some r) : r ≠ some noLogGroupMsg := by
  rw [tryRule] at h
  rcases hs : reSearch e.pattern ql with _ | m
  · rw [hs] at h
    exact absurd h (by simp)
  · rw [hs] at h
    simp only [Option.some.injEq] at h
    subst h
    split
    · split
      · simp
      · simpa using buildReport_ne_noLogGroup _ _ _
    · simpa using buildReport_ne_noLogGroup _ _ _

theorem analyseLoop_ne_noLogGroup (rules : List ErrorPattern) (ql alm : Str) :
    analyseLoop rules ql alm ≠ some noLogGroupMsg := by
  induction rules with
  | nil =>
    rw [analyseLoop]
    decide
  | cons e rest ih =>
    rw [analyseLoop]
    rcases ht : tryRule e ql alm with _ | r
    · exact ih
    · exact tryRule_ne_noLogGroup e ql alm ht

theorem analyseLoop_no_match (rules : List ErrorPattern) (ql alm : Str)
    (h : ∀ e ∈ rules, reSearch e.pattern ql = none) :
    analyseLoop rules ql alm = some noErrorsMsg := by
  induction rules with
  | nil => rfl
  | cons e rest ih =>
    rw [analyseLoop, tryRule, h e (List.mem_cons_self e rest)]
    exact ih fun e' he' => h e' (List.mem_cons_of_mem e he')

/-! ### Claim theorems -/

/-- A non-empty log text containing `401 Unauthorized` but no parenthesized
hexadecimal UUID token. -/
def unauthorizedNoUuid : Str :=
  str "The client received a 401 Unauthorized response from the endpoint"

/-- C10: `analyse_logs` is not total at its public interface: on the
non-empty input `unauthorizedNoUuid` no rule before the `401 Unauthorized`
rule matches, that rule (index 5 of `ERRORS`) matches with `redact = true`,
but its `redacted_message_pattern` fails to re-match the matched span, so
`analyse_logs` raises (`none`) instead of returning a report. -/
theorem c10_analyse_logs_raises_on_bare_401 :
    unauthorizedNoUuid ≠ [] ∧
    (∀ e ∈ ERRORS.take 5, reSearch e.pattern unauthorizedNoUuid = none) ∧
    (ERRORS.get ⟨5, by decide⟩).redact = true ∧
    reSearch (ERRORS.get ⟨5, by decide⟩).pattern unauthorizedNoUuid =
      some ⟨unauthorizedNoUuid, []⟩ ∧
    reSearch (ERRORS.get ⟨5, by decide⟩).redacted_message_pattern unauthorizedNoUuid = none ∧
    analyse_logs (some unauthorizedNoUuid) [] = none := by
  decide

/-- A log line that the explicit-deny rule's detect pattern matches: a UUID
token followed by the explicit-deny error message. -/
def explicitDenyLine : Str :=
  str "(123e4567-e89b-12d3-a456-426614174000) User is not authorized to access this resource with an explicit deny"

/-- C1 (evidence): catalog self-consistency fails for the rule detecting
`User is not authorized to access this resource with an explicit deny`
(index 10 of `ERRORS`): the rule redacts, its detect pattern matches
`explicitDenyLine` with the whole line as span, but its
`redacted_message_pattern` (which requires the text
`not authorized to perform: execute-api:Invoke on resource`) does not match
that span, and the loop body of `analyse_logs` would raise on it
(`tryRule ... = some none`). -/
theorem c1_explicit_deny_rule_inconsistent :
    (ERRORS.get ⟨10, by decide⟩).redact = true ∧
    reSearch (ERRORS.get ⟨10, by decide⟩).pattern explicitDenyLine =
      some ⟨explicitDenyLine, [explicitDenyLine]⟩ ∧
    reSearch (ERRORS.get ⟨10, by decide⟩).redacted_message_pattern explicitDenyLine = none ∧
    tryRule (ERRORS.get ⟨10, by decide⟩) explicitDenyLine [] = some none := by
  decide

/-- C2 (counterexample): on a non-empty log text no rule matches and a
non-empty access-log note, `analyse_logs` returns exactly the bare
no-errors sentinel, which is not the sentinel followed by the note. -/
theorem c2_counterexample :
    analyse_logs (some (str "hello")) (str "note") = some noErrorsMsg ∧
    some noErrorsMsg ≠ some (noErrorsMsg ++ '\n' :: str "note") := by
  decide

/-- C2 (amended): for every non-empty log text that no catalog rule matches,
`analyse_logs` returns the bare no-errors sentinel; the access-log note is
not appended in the no-match branch. -/
theorem c2_no_match_returns_bare_sentinel (ql alm : Str) (hne : ql ≠ [])
    (hnm : ∀ e ∈ ERRORS, reSearch e.pattern ql = none) :
    analyse_logs (some ql) alm = some noErrorsMsg := by
  rw [analyse_logs]
  cases ql with
  | nil => exact absurd rfl hne
  | cons c t => exact analyseLoop_no_match ERRORS (c :: t) _ hnm

theorem c2_witness : analyse_logs (some (str "hello")) (str "x") = some noErrorsMsg :=
  c2_no_match_returns_bare_sentinel (str "hello") (str "x") (by decide) (by decide)

/-- C8: `analyse_logs` returns the no-log-group sentinel exactly when the
log text is absent (`None`) or empty, and returns the distinct no-errors
sentinel on every non-empty text that no catalog rule matches. -/
theorem c8_sentinels (ql : Option Str) (alm : Str) :
    (analyse_logs ql alm = some noLogGroupMsg ↔ ql = none ∨ ql = some []) ∧
    (∀ l, ql = some l → l ≠ [] → (∀ e ∈ ERRORS, reSearch e.pattern l = none) →
      analyse_logs ql alm = some noErrorsMsg) ∧
    noErrorsMsg ≠ noLogGroupMsg := by
  refine ⟨?_, ?_, by decide⟩
  · cases ql with
    | none => simp [analyse_logs]
    | some l =>
      cases l with
      | nil => simp [analyse_logs]
      | cons c t =>
        rw [analyse_logs]
        simp only [List.isEmpty_cons, Option.some.injEq, reduceCtorEq, List.cons_ne_nil,
          or_self, iff_false]
        exact analyseLoop_ne_noLogGroup ERRORS (c :: t) _
  · rintro l rfl hne hnm
    rw [analyse_logs]
    cases l with
    | nil => exact absurd rfl hne
    | cons c t => exact analyseLoop_no_match ERRORS (c :: t) _ hnm

theorem c8_witness :
    analyse_logs none (str "x") = some noLogGroupMsg ∧
    analyse_logs (some (str "nothing to see")) [] = some noErrorsMsg := by
  constructor
  · exact (c8_sentinels none (str "x")).1.mpr (Or.inl rfl)
  · exact (c8_sentinels (some (str "nothing to see")) []).2.1
      (str "nothing to see") rfl (by decide) (by decide)

/-- C7: `validate_time_range(a, b)` is true exactly when either input is
absent (empty) or both parse and the parsed start is strictly before the
parsed end; in particular it is false when both inputs are present but one
fails to parse. -/
theorem c7_validate_time_range_spec (parse : Str → Option Int) (a b : Str) :
    validate_time_range parse a b = true ↔
      a = [] ∨ b = [] ∨
        ∃ sa sb, parse a = some sa ∧ parse b = some sb ∧ sa < sb := by
  rw [validate_time_range]
  cases a with
  | nil => simp
  | cons c t =>
    cases b with
    | nil => simp
    | cons d u =>
      simp only [List.isEmpty_cons, Bool.not_false, Bool.and_self, if_true,
        reduceCtorEq, false_or]
      rcases hpa : parse (c :: t) with _ | sa
      · simp
      · rcases hpb : parse (d :: u) with _ | sb
        · simp
        · simp [decide_eq_true_eq]

/-- C4: when query submission fails with a `ClientError`,
`log_insights_query` returns `None` (the NotFound outcome) without raising
exactly when the code is `ResourceNotFoundException`; any other code is
raised as a backend error naming that code.  Polling never happens, so no
sleep occurs. -/
theorem c4_submission_failure (b : Backend) (q lg : Str) (st et : Int) (acc : Bool)
    (fuel : Nat) (code : Str) (h : b.start_query lg st et q = .error code) :
    log_insights_query b q lg st et acc fuel =
      if code = str "ResourceNotFoundException" then some (.ok none, [])
      else some (.error (.startFailure code), []) := by
  rw [log_insights_query, h]

/-- Backend whose query submission always fails with
`ResourceNotFoundException` (the log group does not exist). -/
def rnfBackend : Backend where
  start_query := fun _ _ _ _ => .error (str "ResourceNotFoundException")
  get_query_results := fun _ _ => ⟨str "Complete", []⟩

theorem c4_witness :
    log_insights_query rnfBackend (str "q") (str "g") 0 1 false 0 = some (.ok none, []) := by
  have h := c4_submission_failure rnfBackend (str "q") (str "g") 0 1 false 0
    (str "ResourceNotFoundException") rfl
  rw [if_pos rfl] at h
  exact h

/-- C6: when the first three poll responses have status `Running` and the
fourth does not, `log_insights_query` sleeps for 1, 1.5 and 2.25 time-units
between successive polls (geometric with ratio `BACKOFF_RATE = 1.5`). -/
theorem c6_backoff_sequence (b : Backend) (q lg : Str) (st et : Int) (acc : Bool)
    (fuel : Nat) (qid : Str) (h : b.start_query lg st et q = .ok qid)
    (h0 : (b.get_query_results qid 0).status = str "Running")
    (h1 : (b.get_query_results qid 1).status = str "Running")
    (h2 : (b.get_query_results qid 2).status = str "Running")
    (h3 : (b.get_query_results qid 3).status ≠ str "Running") :
    (log_insights_query b q lg st et acc (fuel + 4)).map Prod.snd =
      some [1, 3/2, 9/4] := by
  have hpa : pollAux (b.get_query_results qid) 0 1 [] (fuel + 4) =
      some (b.get_query_results qid 3, [1, 3/2, 9/4]) := by
    rw [pollAux, if_pos h0, pollAux, if_pos h1, pollAux, if_pos h2, pollAux, if_neg h3]
    norm_num [BACKOFF_RATE]
  simp only [log_insights_query, h, hpa]
  split <;> rfl

/-- Backend whose query stays `Running` for exactly three polls. -/
def runningBackend : Backend where
  start_query := fun _ _ _ _ => .ok (str "qid")
  get_query_results := fun _ n =>
    if n < 3 then ⟨str "Running", []⟩ else ⟨str "Complete", [str "line"]⟩

theorem c6_witness :
    (log_insights_query runningBackend (str "q") (str "g") 0 1 false 4).map Prod.snd =
      some [1, 3/2, 9/4] :=
  c6_backoff_sequence runningBackend (str "q") (str "g") 0 1 false 0 (str "qid") rfl
    (by decide) (by decide) (by decide) (by decide)

/-- Backend whose query immediately ends in the terminal status `Failed`
while the response still carries a result record. -/
def failedResultsBackend : Backend where
  start_query := fun _ _ _ _ => .ok (str "qid")
  get_query_results := fun _ _ => ⟨str "Failed", [str "partial"]⟩

/-- C3 (counterexample): on an access-log query whose polled status is the
terminal `Failed` but whose response carries a result record, the failure is
suppressed yet `log_insights_query` returns that record joined, not an empty
result. -/
theorem c3_counterexample :
    log_insights_query failedResultsBackend (str "q") (str "g") 0 1 true 1 =
      some (.ok (some (str "partial")), []) ∧
    str "partial" ≠ ([] : Str) :=
  ⟨rfl, by decide⟩

/-- C3 (amended): when the polled query ends in a terminal non-success
status, an access-log query suppresses the failure and returns the join of
whatever result lines the terminal response carries (so the empty string
when it carries none), while a non-access-log query raises a backend query
failure naming the status; and given submission succeeded, the function
raises a query failure exactly when it is a non-access-log query ending in a
terminal status. -/
theorem c3_terminal_status (b : Backend) (q lg : Str) (st et : Int) (fuel : Nat)
    (qid : Str) (resp : QueryResponse) (sleeps : List ℚ)
    (hs : b.start_query lg st et q = .ok qid)
    (hp : pollAux (b.get_query_results qid) 0 1 [] fuel = some (resp, sleeps)) :
    (resp.status ∈ terminalStatuses →
      log_insights_query b q lg st et true fuel =
        some (.ok (some (joinWith (str "\n") resp.results)), sleeps) ∧
      (resp.results = [] →
        log_insights_query b q lg st et true fuel = some (.ok (some []), sleeps)) ∧
      log_insights_query b q lg st et false fuel =
        some (.error (.queryFailed resp.status), sleeps)) ∧
    (∀ acc : Bool,
      (∃ s tr, log_insights_query b q lg st et acc fuel =
          some (.error (.queryFailed s), tr)) ↔
        acc = false ∧ resp.status ∈ terminalStatuses) := by
  constructor
  · intro hmem
    refine ⟨?_, ?_, ?_⟩
    · simp [log_insights_query, hs, hp, hmem]
    · intro hres
      simp [log_insights_query, hs, hp, hmem, hres, joinWith]
    · simp [log_insights_query, hs, hp, hmem]
  · intro acc
    by_cases hmem : resp.status ∈ terminalStatuses <;>
      rcases acc with _ | _ <;>
        simp [log_insights_query, hs, hp, hmem]

theorem c3_witness :
    log_insights_query failedResultsBackend (str "q") (str "g") 0 1 false 1 =
      some (.error (.queryFailed (str "Failed")), []) := by
  have h := c3_terminal_status failedResultsBackend (str "q") (str "g") 0 1 1 (str "qid")
    ⟨str "Failed", [str "partial"]⟩ [] rfl (by decide)
  exact (h.1 (by decide)).2.2

/-- C5: if both supplied time strings parse but the start is not strictly
before the end, `check_logs` raises the `ValueError` for an inverted range;
the result is the same for every backend `b` and fuel, so no log-backend
call can have influenced it (the query is never submitted). -/
theorem c5_inverted_range_raises (parse : Str → Option Int) (now : Int) (b : Backend)
    (fuel : Nat) (event : HandlerEvent) (s e : Int)
    (hS : event.StartTime ≠ []) (hE : event.EndTime ≠ [])
    (hps : parse event.StartTime = some s) (hpe : parse event.EndTime = some e)
    (hnlt : ¬ s < e) :
    check_logs parse now b fuel event = some (.error .invalidTimeRange) := by
  have h1 : resolveStartTime parse now event.StartTime = .ok s := by
    rw [resolveStartTime, if_neg, hps]
    simp [List.isEmpty_iff, hS]
  have h2 : resolveEndTime parse now event.EndTime = .ok e := by
    rw [resolveEndTime, if_neg, hpe]
    simp [List.isEmpty_iff, hE]
  have h3 : validate_time_range parse event.StartTime event.EndTime = false := by
    rw [validate_time_range, if_pos, hps, hpe]
    · exact decide_eq_false hnlt
    · simp [List.isEmpty_iff, hS, hE]
  simp [check_logs, h1, h2, h3]

/-- Clock/parse/event fixtures for the C5 witness: `StartTime` parses to 10,
`EndTime` to 5, so the range is inverted. -/
def c5Parse : Str → Option Int := fun s =>
  if s = str "t10" then some 10 else if s = str "t5" then some 5 else none

def c5Event : HandlerEvent :=
  { RestApiId := str "api", StageName := str "stage", StartTime := str "t10",
    EndTime := str "t5", RequestId := [], AccessLogName := [] }

def c5Backend : Backend where
  start_query := fun _ _ _ _ => .ok (str "qid")
  get_query_results := fun _ _ => ⟨str "Complete", []⟩

theorem c5_witness :
    check_logs c5Parse 1000 c5Backend 3 c5Event = some (.error .invalidTimeRange) :=
  c5_inverted_range_raises c5Parse 1000 c5Backend 3 c5Event 10 5 (by decide) (by decide)
    (by decide) (by decide) (by decide)

/-- The log text shape of the redaction round-trip property: sensitive
context `pre`/`mid`/`post` around the spec's UUID token and the phrase
`401 Unauthorized`. -/
def c9Text (pre mid post : Str) : Str :=
  pre ++ uuidTok ++ mid ++ str "401 Unauthorized" ++ post

/-- C9: for log text containing a line
`(123e4567-e89b-12d3-a456-426614174000) ... 401 Unauthorized ...`
(one line: no newline in the context pieces; the UUID token is the first
parenthesis; none of the five earlier catalog rules matches), the report of
`analyse_logs` has as matched text exactly the UUID token and
`401 Unauthorized` joined with one space and suffixed with the redaction
marker — the surrounding context `pre`/`mid`/`post` does not appear. -/
theorem c9_redaction_round_trip (pre mid post alm : Str)
    (hpren : '\n' ∉ pre) (hmidn : '\n' ∉ mid) (hpostn : '\n' ∉ post)
    (hprep : '(' ∉ pre)
    (hna : containsSub ('N' :: str "etwork error communicating with endpoint")
      (c9Text pre mid post) = false)
    (hnb : containsSub ('n' :: str "etwork error communicating with endpoint")
      (c9Text pre mid post) = false)
    (h1 : containsSub (str "Execution failed due to configuration error: Invalid endpoint address")
      (c9Text pre mid post) = false)
    (h2 : containsSub (str "Execution failed due to a timeout error")
      (c9Text pre mid post) = false)
    (h3 : containsSub (str "Malformed Lambda proxy response")
      (c9Text pre mid post) = false)
    (h4 : containsSub (str "Lambda invocation failed with status: 429")
      (c9Text pre mid post) = false) :
    analyse_logs (some (c9Text pre mid post)) alm =
      some (buildReport
        (joinWith (str " ") [uuidTok, str "401 Unauthorized"] ++ redactMarker)
        (joinWith (str "\n- ")
          [str "https://repost.aws/knowledge-center/api-gateway-cognito-401-unauthorized",
           str "https://repost.aws/knowledge-center/api-gateway-401-error-lambda-authorizer"])
        (if alm.isEmpty then alm else '\n' :: alm)) := by
  have huuidn : '\n' ∉ uuidTok := by decide
  have hlitn : '\n' ∉ str "401 Unauthorized" := by decide
  have hnl : '\n' ∉ c9Text pre mid post := by
    rw [c9Text]
    simp only [List.mem_append]
    rintro ((((h | h) | h) | h) | h)
    · exact hpren h
    · exact huuidn h
    · exact hmidn h
    · exact hlitn h
    · exact hpostn h
  have hsingle : splitLines (c9Text pre mid post) = [c9Text pre mid post] :=
    splitLines_eq_single hnl
  have hfind : containsSub (str "401 Unauthorized") (c9Text pre mid post) = true := by
    have hshape : c9Text pre mid post =
        (pre ++ uuidTok ++ mid) ++ (str "401 Unauthorized" ++ post) := by
      simp [c9Text, List.append_assoc]
    rw [hshape]
    exact containsSub_sandwich _ _ _
  have e0 : reSearch (.caseDotStarLit 'N' 'n' (str "etwork error communicating with endpoint"))
      (c9Text pre mid post) = none := by
    simp [reSearch, hsingle, List.find?, hna, hnb]
  have e1 : reSearch (.groupDotStarLit (str "Execution failed due to configuration error: Invalid endpoint address"))
      (c9Text pre mid post) = none := by
    simp [reSearch, hsingle, List.find?, h1]
  have e2 : reSearch (.groupDotStarLit (str "Execution failed due to a timeout error"))
      (c9Text pre mid post) = none := by
    simp [reSearch, hsingle, List.find?, h2]
  have e3 : reSearch (.groupDotStarLit (str "Malformed Lambda proxy response"))
      (c9Text pre mid post) = none := by
    simp [reSearch, hsingle, List.find?, h3]
  have e4 : reSearch (.groupDotStarLit (str "Lambda invocation failed with status: 429"))
      (c9Text pre mid post) = none := by
    simp [reSearch, hsingle, List.find?, h4]
  have e5 : reSearch (.dotStarLit (str "401 Unauthorized")) (c9Text pre mid post) =
      some ⟨c9Text pre mid post, []⟩ := by
    simp [reSearch, hsingle, List.find?, hfind]
  have hrest_nl : '\n' ∉ mid ++ (str "401 Unauthorized" ++ post) := by
    simp only [List.mem_append]
    rintro (h | h | h)
    · exact hmidn h
    · exact hlitn h
    · exact hpostn h
  have hrest : containsSub (str "401 Unauthorized")
      ((mid ++ (str "401 Unauthorized" ++ post)).takeWhile (fun d => d != '\n')) = true := by
    rw [takeWhile_ne_nl hrest_nl]
    exact containsSub_sandwich _ _ _
  have hshape2 : c9Text pre mid post =
      pre ++ (uuidTok ++ (mid ++ (str "401 Unauthorized" ++ post))) := by
    rw [c9Text]
    simp [List.append_assoc]
  have hfu : findUuidLit (str "401 Unauthorized") (c9Text pre mid post) =
      some (uuidTok, mid ++ (str "401 Unauthorized" ++ post)) := by
    rw [hshape2, findUuidLit_append_no_paren _ hprep, findUuidLit_at_uuidTok _ hrest,
      takeWhile_ne_nl hrest_nl]
  have e5r : reSearch (.uuidThenLit (str "401 Unauthorized")) (c9Text pre mid post) =
      some ⟨uuidTok ++ (mid ++ (str "401 Unauthorized" ++ post)),
        [uuidTok, str "401 Unauthorized"]⟩ := by
    simp [reSearch, hfu]
  have htne : c9Text pre mid post ≠ [] := by
    rw [hshape2]
    intro h
    rcases List.append_eq_nil.mp h with ⟨-, h2⟩
    rcases List.append_eq_nil.mp h2 with ⟨h3, -⟩
    exact absurd h3 (by decide)
  simp only [analyse_logs, List.isEmpty_eq_false.mpr htne, Bool.false_eq_true, if_false,
    ERRORS, analyseLoop, tryRule, e0, e1, e2, e3, e4, e5, e5r, if_true]

theorem c9_witness :
    analyse_logs
      (some (c9Text (str "secret context ") (str " session token xyz ")
        (str " more secret context"))) [] =
      some (buildReport
        (joinWith (str " ") [uuidTok, str "401 Unauthorized"] ++ redactMarker)
        (joinWith (str "\n- ")
          [str "https://repost.aws/knowledge-center/api-gateway-cognito-401-unauthorized",
           str "https://repost.aws/knowledge-center/api-gateway-401-error-lambda-authorizer"])
        []) := by
  have h := c9_redaction_round_trip (str "secret context ") (str " session token xyz ")
    (str " more secret context") [] (by decide) (by decide) (by decide) (by decide)
    (by decide) (by decide) (by decide) (by decide) (by decide) (by decide)
  exact h
